import Mathlib

/-!
Verification of the krili-Backend chat-moderation pipeline
(`src/chat_moderation_system.py`).

The Python module is shallowly embedded here:

* Python `re` patterns are transcribed into an explicit regular-expression
  AST (`RE`) and executed by a backtracking matcher (`matchEnds` /
  `reSearch`) that supports the constructs the source patterns use
  (character classes, alternation, bounded and unbounded repetition,
  word boundaries).  Both call sites in the source match against
  lowercased text, so the matcher is case-sensitive over lowercase input
  while the transcribed character classes keep both cases.
* Python floats are modelled as rationals (`ℚ`); every constant of the
  source (0.9, 0.8, 0.6, 1.2, ...) is an exact decimal, and no computation
  in scope leaves exact decimal arithmetic.
* The SQLite-backed tables are modelled as an explicit map from user id to
  the `user_stats` row (`DB`); the flagged-message log itself carries no
  data any claim reads back, so persistence is modelled by its control
  flow (success or raised error) only.
* The scikit-learn classifier is external code; its outputs enter the
  embedding as parameters (`sklearn`, `trained`, `clfPred`, `clfConf`),
  mirroring exactly how `predict_violation` branches on them.
* Exception control flow of `moderate_message` is modelled with `Except`:
  the body of the `try` block threads the partially-built result record,
  and the `except` handler receives it together with the error string.
-/

set_option maxRecDepth 4000

namespace ChatModeration

/-! ## A small regular-expression engine

`RE` is the fragment of Python `re` syntax used by the source patterns.
`matchEnds r s i` returns the positions at which a match of `r` starting
at position `i` of `s` may end; `reSearch` is `re.search`-style matching
anywhere in the string (which is what `findall`-nonemptiness amounts to
for these patterns). -/

inductive RE where
  | eps : RE
  | cls (p : Char → Bool) : RE
  | seq (a b : RE) : RE
  | alt (a b : RE) : RE
  | star (a : RE) : RE
  | wb : RE

/-- Python `\w` (ASCII range; all source text is ASCII after lowering). -/
def wordChar (c : Char) : Bool :=
  c.isAlpha || c.isDigit || c = '_'

/-- Iterate a star body; only strictly advancing iterations are kept,
which preserves the matched language (star bodies matching the empty
string contribute nothing new). -/
def starEnds (f : Nat → List Nat) : Nat → Nat → List Nat
  | 0, i => [i]
  | fuel + 1, i =>
      i :: (((f i).filter (fun j => i < j)).flatMap (starEnds f fuel)).dedup

def matchEnds : RE → List Char → Nat → List Nat
  | .eps, _, i => [i]
  | .cls p, s, i =>
      match s.get? i with
      | some c => if p c then [i + 1] else []
      | none => []
  | .seq a b, s, i => ((matchEnds a s i).flatMap (matchEnds b s)).dedup
  | .alt a b, s, i => (matchEnds a s i ++ matchEnds b s i).dedup
  | .star a, s, i => starEnds (matchEnds a s) (s.length + 1 - i) i
  | .wb, s, i =>
      let pw := match (if i = 0 then none else s.get? (i - 1)) with
        | some c => wordChar c
        | none => false
      let nw := match s.get? i with
        | some c => wordChar c
        | none => false
      if pw ≠ nw then [i] else []

/-- `re.search`: does the pattern match starting at any position? -/
def reSearch (r : RE) (s : List Char) : Bool :=
  (List.range (s.length + 1)).any (fun i => !(matchEnds r s i).isEmpty)

/-! ### Pattern combinators used while transcribing the source patterns -/

/-- A class matching nothing (used as the unit of alternation folds). -/
def rfail : RE := .cls (fun _ => false)

def rchar (c : Char) : RE := .cls (fun x => x = c)

/-- A literal string. -/
def rstr (s : String) : RE := (s.data.map rchar).foldr .seq .eps

/-- Concatenation of a pattern list. -/
def rcat (l : List RE) : RE := l.foldr .seq .eps

/-- `(?:a|b|...)`. -/
def rany (l : List RE) : RE := l.foldr .alt rfail

/-- `r?`. -/
def ropt (r : RE) : RE := .alt r .eps

/-- `r+`. -/
def rplus (r : RE) : RE := .seq r (.star r)

/-- Exactly `n` copies of `r` (`r{n}`). -/
def rexact : Nat → RE → RE
  | 0, _ => .eps
  | n + 1, r => .seq r (rexact n r)

/-- `r{n,}`. -/
def ratleast (n : Nat) (r : RE) : RE := .seq (rexact n r) (.star r)

/-- `r{lo,hi}`. -/
def rrange (lo hi : Nat) (r : RE) : RE :=
  .seq (rexact lo r) (rexact (hi - lo) (ropt r))

/-! ### Character classes appearing in the source patterns -/

/-- `[A-Za-z0-9._%+-]` (email local part). -/
def emailLocalChar (c : Char) : Bool :=
  c.isAlpha || c.isDigit || c = '.' || c = '_' || c = '%' || c = '+' || c = '-'

/-- `[A-Za-z0-9.-]` (email domain part). -/
def emailDomainChar (c : Char) : Bool :=
  c.isAlpha || c.isDigit || c = '.' || c = '-'

/-- `[A-Z|a-z]` — the source class literally includes the bar. -/
def tldChar (c : Char) : Bool :=
  c.isAlpha || c = '|'

/-- Python `\s`. -/
def spaceChar (c : Char) : Bool :=
  c = ' ' || c = '\t' || c = '\n' || c = '\r' || c.val = 11 || c.val = 12

/-- `[0-9]` / `\d`. -/
def digitChar (c : Char) : Bool := c.isDigit

/-- `[1-9]`. -/
def digit19Char (c : Char) : Bool := c.isDigit && c ≠ '0'

/-- `[-.\s]`. -/
def sepChar (c : Char) : Bool := c = '-' || c = '.' || spaceChar c

/-- `[\s-]`. -/
def wsDashChar (c : Char) : Bool := spaceChar c || c = '-'

/-- `[A-Za-z0-9_-]` (link user names). -/
def linkChar (c : Char) : Bool :=
  c.isAlpha || c.isDigit || c = '_' || c = '-'

def rws : RE := .cls spaceChar
def rwsStar : RE := .star rws
def rwsPlus : RE := rplus rws

/-- `(?:zero|one|...|nine)`. -/
def digitWord : RE :=
  rany [rstr "zero", rstr "one", rstr "two", rstr "three", rstr "four",
        rstr "five", rstr "six", rstr "seven", rstr "eight", rstr "nine"]

/-! ## String utilities mirroring the Python primitives -/

/-- Python `str.lower` (ASCII). -/
def toLowerStr (s : String) : String := ⟨s.data.map Char.toLower⟩

/-- Is `p` an initial segment of `s`? -/
def leadsWith : List Char → List Char → Bool
  | [], _ => true
  | _ :: _, [] => false
  | p :: ps, c :: cs => p = c && leadsWith ps cs

/-- Python `str.replace`: left-to-right, non-overlapping, the replacement
text is not rescanned.  Fuelled; every source call has a non-empty
pattern, so `s.length + 1` fuel always suffices. -/
def replaceAllAux (pat rep : List Char) : Nat → List Char → List Char
  | 0, s => s
  | fuel + 1, s =>
      match s with
      | [] => []
      | c :: rest =>
          if leadsWith pat s then rep ++ replaceAllAux pat rep fuel (s.drop pat.length)
          else c :: replaceAllAux pat rep fuel rest

/-- Python `s.replace(pat, rep)`. -/
def pyReplace (s pat rep : String) : String :=
  ⟨replaceAllAux pat.data rep.data (s.data.length + 1) s.data⟩

/-- Python `re.sub(r'\s+', ' ', s)`: each maximal whitespace run becomes
one space. -/
def collapseWs : List Char → List Char
  | [] => []
  | [c] => [if spaceChar c then ' ' else c]
  | c1 :: c2 :: rest =>
      if spaceChar c1 && spaceChar c2 then collapseWs (c2 :: rest)
      else (if spaceChar c1 then ' ' else c1) :: collapseWs (c2 :: rest)

/-! ## Config (`Config`, `src/chat_moderation_system.py` lines 68-116) -/

def PLATFORM_NAME : String := "KRILI"

def REGEX_CONFIDENCE : ℚ := 9/10

def ML_CONFIDENCE_THRESHOLD : ℚ := 7/10

def COMBINED_CONFIDENCE_THRESHOLD : ℚ := 3/5

/-- `Config.WARNING_MESSAGES` (the f-strings with `PLATFORM_NAME = "KRILI"`
already interpolated, exactly as Python builds them). -/
def WARNING_MESSAGES (key : String) : String :=
  if key = "personal_info" then
    "🚫 Sharing personal info or off-platform payment methods is not allowed. Please use the secure system inside KRILI."
  else if key = "external_platform" then
    "🚫 Mentions of external platforms are not allowed. Please keep all communications within KRILI."
  else if key = "off_platform_transaction" then
    "🚫 Attempting to move transactions outside KRILI is prohibited. Use our secure payment system."
  else
    "🚫 This message violates our community guidelines. Please use KRILI's secure features."

/-! ### `Config.REGEX_PATTERNS`, transcribed pattern by pattern.

Each definition's doc comment quotes the Python literal it embeds. -/

/-- `\b[A-Za-z0-9._%+-]+@[A-Za-z0-9.-]+\.[A-Z|a-z]{2,}\b` -/
def emailPat1 : RE :=
  rcat [.wb, rplus (.cls emailLocalChar), rchar '@', rplus (.cls emailDomainChar),
        rchar '.', ratleast 2 (.cls tldChar), .wb]

/-- `\b[A-Za-z0-9._%+-]+\s*@\s*[A-Za-z0-9.-]+\s*\.\s*[A-Z|a-z]{2,}\b` -/
def emailPat2 : RE :=
  rcat [.wb, rplus (.cls emailLocalChar), rwsStar, rchar '@', rwsStar,
        rplus (.cls emailDomainChar), rwsStar, rchar '.', rwsStar,
        ratleast 2 (.cls tldChar), .wb]

/-- `\b[A-Za-z0-9._%+-]+\s*\[\s*at\s*\]\s*[A-Za-z0-9.-]+\s*\[\s*dot\s*\]\s*[A-Z|a-z]{2,}\b` -/
def emailPat3 : RE :=
  rcat [.wb, rplus (.cls emailLocalChar), rwsStar, rchar '[', rwsStar, rstr "at",
        rwsStar, rchar ']', rwsStar, rplus (.cls emailDomainChar), rwsStar,
        rchar '[', rwsStar, rstr "dot", rwsStar, rchar ']', rwsStar,
        ratleast 2 (.cls tldChar), .wb]

/-- `\b(?:\+?1[-.\s]?)?\(?([0-9]{3})\)?[-.\s]?([0-9]{3})[-.\s]?([0-9]{4})\b` -/
def phonePat1 : RE :=
  rcat [.wb,
        ropt (rcat [ropt (rchar '+'), rchar '1', ropt (.cls sepChar)]),
        ropt (rchar '('), rexact 3 (.cls digitChar), ropt (rchar ')'),
        ropt (.cls sepChar), rexact 3 (.cls digitChar),
        ropt (.cls sepChar), rexact 4 (.cls digitChar), .wb]

/-- `\b(?:\+?[1-9]\d{0,3}[-.\s]?)?\(?([0-9]{2,4})\)?[-.\s]?([0-9]{3,4})[-.\s]?([0-9]{3,4})\b` -/
def phonePat2 : RE :=
  rcat [.wb,
        ropt (rcat [ropt (rchar '+'), .cls digit19Char, rrange 0 3 (.cls digitChar),
                    ropt (.cls sepChar)]),
        ropt (rchar '('), rrange 2 4 (.cls digitChar), ropt (rchar ')'),
        ropt (.cls sepChar), rrange 3 4 (.cls digitChar),
        ropt (.cls sepChar), rrange 3 4 (.cls digitChar), .wb]

/-- `\b(?:zero|...|nine)[\s-]*(?:zero|...|nine)[\s-]*(?:zero|...|nine)\b` -/
def phonePat3 : RE :=
  rcat [.wb, digitWord, .star (.cls wsDashChar), digitWord,
        .star (.cls wsDashChar), digitWord, .wb]

/-- `\b(?:paypal\.me|venmo\.com|cashapp\.com|zelle|cash\.app)/[A-Za-z0-9_-]+\b` -/
def payLinkPat1 : RE :=
  rcat [.wb,
        rany [rstr "paypal.me", rstr "venmo.com", rstr "cashapp.com",
              rstr "zelle", rstr "cash.app"],
        rchar '/', rplus (.cls linkChar), .wb]

/-- `\b(?:bit\.ly|tinyurl\.com|t\.co)/[A-Za-z0-9_-]+\b` -/
def payLinkPat2 : RE :=
  rcat [.wb, rany [rstr "bit.ly", rstr "tinyurl.com", rstr "t.co"],
        rchar '/', rplus (.cls linkChar), .wb]

/-- `\b(?:whatsapp|telegram|discord|skype|snapchat|instagram|facebook|twitter|tiktok)\b` -/
def extPlatPat1 : RE :=
  rcat [.wb,
        rany [rstr "whatsapp", rstr "telegram", rstr "discord", rstr "skype",
              rstr "snapchat", rstr "instagram", rstr "facebook", rstr "twitter",
              rstr "tiktok"],
        .wb]

/-- `\b(?:paypal|venmo|cashapp|zelle|western union|moneygram)\b` -/
def extPlatPat2 : RE :=
  rcat [.wb,
        rany [rstr "paypal", rstr "venmo", rstr "cashapp", rstr "zelle",
              rstr "western union", rstr "moneygram"],
        .wb]

/-- `\b(?:gmail|yahoo|hotmail|outlook|protonmail)\b` -/
def extPlatPat3 : RE :=
  rcat [.wb,
        rany [rstr "gmail", rstr "yahoo", rstr "hotmail", rstr "outlook",
              rstr "protonmail"],
        .wb]

/-- `\b(?:contact me|reach me|message me|call me|text me)\s+(?:at|on|via)\b` -/
def offPlatPat1 : RE :=
  rcat [.wb,
        rany [rstr "contact me", rstr "reach me", rstr "message me",
              rstr "call me", rstr "text me"],
        rwsPlus, rany [rstr "at", rstr "on", rstr "via"], .wb]

/-- `\b(?:send|transfer|pay)\s+(?:money|payment|cash)\s+(?:to|via|through)\b` -/
def offPlatPat2 : RE :=
  rcat [.wb, rany [rstr "send", rstr "transfer", rstr "pay"], rwsPlus,
        rany [rstr "money", rstr "payment", rstr "cash"], rwsPlus,
        rany [rstr "to", rstr "via", rstr "through"], .wb]

/-- `\b(?:meet|transaction|deal)\s+(?:outside|off)\s+(?:platform|site|app)\b` -/
def offPlatPat3 : RE :=
  rcat [.wb, rany [rstr "meet", rstr "transaction", rstr "deal"], rwsPlus,
        rany [rstr "outside", rstr "off"], rwsPlus,
        rany [rstr "platform", rstr "site", rstr "app"], .wb]

/-- `Config.REGEX_PATTERNS` in source (insertion) order: the category scan
of `detect_violations` depends on this order. -/
def REGEX_PATTERNS : List (String × List RE) :=
  [("email", [emailPat1, emailPat2, emailPat3]),
   ("phone", [phonePat1, phonePat2, phonePat3]),
   ("payment_links", [payLinkPat1, payLinkPat2]),
   ("external_platforms", [extPlatPat1, extPlatPat2, extPlatPat3]),
   ("off_platform_keywords", [offPlatPat1, offPlatPat2, offPlatPat3])]

/-! ## `RegexDetector` (source lines 297-460) -/

/-- `RegexDetector._normalize_message`: lowercase, then apply the
obfuscation replacement table in its source (insertion) order, then
collapse whitespace runs.  Each `(original, alternatives)` entry replaces
every occurrence of each alternative by `original`. -/
def normalize_message (message : String) : String :=
  let replacements : List (String × List String) :=
    [("@", ["at", "(at)", "[at]", " at ", "_at_"]),
     (".", ["dot", "(dot)", "[dot]", " dot ", "_dot_"]),
     ("0", ["zero", "o", "O"]),
     ("1", ["one", "l", "I"]),
     ("2", ["two", "to"]),
     ("3", ["three", "tree"]),
     ("4", ["four", "for"]),
     ("5", ["five"]),
     ("6", ["six"]),
     ("7", ["seven"]),
     ("8", ["eight"]),
     ("9", ["nine"])]
  let lowered := toLowerStr message
  let replaced := replacements.foldl
    (fun acc entry => entry.2.foldl (fun a alt => pyReplace a alt entry.1) acc)
    lowered
  ⟨collapseWs replaced.data⟩

/-- The dict returned by `RegexDetector.detect_violations`.  The
`matched_patterns` and `details` payloads are omitted: no property in
scope reads their contents, only whether any pattern matched, which
`is_violation` carries. -/
structure ViolationResult where
  is_violation : Bool
  violation_type : Option String
  confidence : ℚ
deriving DecidableEq, Repr

/-- `RegexDetector.detect_violations`: scan categories in
`REGEX_PATTERNS` order over the normalized message; the first category
with any matching pattern wins (`break`) with the fixed
`Config.REGEX_CONFIDENCE`. -/
def detect_violations (message : String) : ViolationResult :=
  let normalized := (normalize_message message).data
  match REGEX_PATTERNS.find? (fun cat => cat.2.any (fun p => reSearch p normalized)) with
  | some cat =>
      { is_violation := true, violation_type := some cat.1,
        confidence := REGEX_CONFIDENCE }
  | none =>
      { is_violation := false, violation_type := none, confidence := 0 }

/-- The dict returned by `RegexDetector.detect_smart_bypasses`
(`matched_patterns` and the ±20-character `context` window omitted as
above). -/
structure BypassResult where
  is_bypass : Bool
  bypass_type : Option String
  confidence : ℚ
deriving DecidableEq, Repr

/-! The `bypass_patterns` list of `detect_smart_bypasses`, in source
order; doc strings of the nine `bpPat*` definitions quote the literals. -/

/-- `(?:contact|reach|message|call|text)\s+me\s+(?:at|on|via)` -/
def bpPat1 : RE :=
  rcat [rany [rstr "contact", rstr "reach", rstr "message", rstr "call", rstr "text"],
        rwsPlus, rstr "me", rwsPlus, rany [rstr "at", rstr "on", rstr "via"]]

/-- `(?:my|the)\s+(?:number|email|phone)\s+is` -/
def bpPat2 : RE :=
  rcat [rany [rstr "my", rstr "the"], rwsPlus,
        rany [rstr "number", rstr "email", rstr "phone"], rwsPlus, rstr "is"]

/-- `(?:send|transfer|pay)\s+(?:to|via|through)\s+(?:my|this)` -/
def bpPat3 : RE :=
  rcat [rany [rstr "send", rstr "transfer", rstr "pay"], rwsPlus,
        rany [rstr "to", rstr "via", rstr "through"], rwsPlus,
        rany [rstr "my", rstr "this"]]

/-- `(?:meet|deal|transaction)\s+(?:outside|off)\s+(?:platform|site|app)` -/
def bpPat4 : RE :=
  rcat [rany [rstr "meet", rstr "deal", rstr "transaction"], rwsPlus,
        rany [rstr "outside", rstr "off"], rwsPlus,
        rany [rstr "platform", rstr "site", rstr "app"]]

/-- `(?:zero|...|nine)[\s-]*(?:zero|...|nine)` -/
def bpPat5 : RE :=
  rcat [digitWord, .star (.cls wsDashChar), digitWord]

/-- `[a-zA-Z0-9._%+-]+\s*\[\s*at\s*\]\s*[a-zA-Z0-9.-]+` -/
def bpPat6 : RE :=
  rcat [rplus (.cls emailLocalChar), rwsStar, rchar '[', rwsStar, rstr "at",
        rwsStar, rchar ']', rwsStar, rplus (.cls emailDomainChar)]

/-- `(?:gmail|yahoo|hotmail|outlook)\s*\[\s*dot\s*\]\s*com` -/
def bpPat7 : RE :=
  rcat [rany [rstr "gmail", rstr "yahoo", rstr "hotmail", rstr "outlook"],
        rwsStar, rchar '[', rwsStar, rstr "dot", rwsStar, rchar ']', rwsStar,
        rstr "com"]

/-- `(?:add|contact|find)\s+me\s+on\s+(?:whatsapp|telegram|discord|instagram)` -/
def bpPat8 : RE :=
  rcat [rany [rstr "add", rstr "contact", rstr "find"], rwsPlus, rstr "me",
        rwsPlus, rstr "on", rwsPlus,
        rany [rstr "whatsapp", rstr "telegram", rstr "discord", rstr "instagram"]]

/-- `(?:paypal|venmo|cashapp|zelle)\s+(?:me|link|account)` -/
def bpPat9 : RE :=
  rcat [rany [rstr "paypal", rstr "venmo", rstr "cashapp", rstr "zelle"],
        rwsPlus, rany [rstr "me", rstr "link", rstr "account"]]

def bypass_patterns : List (RE × String) :=
  [(bpPat1, "contact_bypass"), (bpPat2, "info_sharing"), (bpPat3, "payment_bypass"),
   (bpPat4, "off_platform"), (bpPat5, "number_words"), (bpPat6, "obfuscated_email"),
   (bpPat7, "obfuscated_domain"), (bpPat8, "platform_redirect"),
   (bpPat9, "payment_platform")]

/-- `RegexDetector.detect_smart_bypasses`: first-match-wins over
`bypass_patterns` against the merely lowercased (NOT normalized) message,
fixed confidence 0.8. -/
def detect_smart_bypasses (message : String) : BypassResult :=
  let lowered := (toLowerStr message).data
  match bypass_patterns.find? (fun pr => reSearch pr.1 lowered) with
  | some pr =>
      { is_bypass := true, bypass_type := some pr.2, confidence := 8/10 }
  | none =>
      { is_bypass := false, bypass_type := none, confidence := 0 }

/-- The dict built by `RegexDetector.analyze_message_risk`. -/
structure RiskAnalysis where
  has_violation : Bool
  has_bypass : Bool
  overall_risk : String
  confidence : ℚ
  violation_details : ViolationResult
  bypass_details : BypassResult
  recommended_action : String
deriving DecidableEq, Repr

/-- The result-combination step of `analyze_message_risk`, split out so
properties can quantify over arbitrary detector outputs. -/
def risk_analysis_of (v : ViolationResult) (b : BypassResult) : RiskAnalysis :=
  if v.is_violation && b.is_bypass then
    { has_violation := true, has_bypass := true, overall_risk := "critical",
      confidence := max v.confidence b.confidence,
      violation_details := v, bypass_details := b, recommended_action := "block" }
  else if v.is_violation then
    { has_violation := true, has_bypass := false, overall_risk := "high",
      confidence := v.confidence,
      violation_details := v, bypass_details := b, recommended_action := "block" }
  else if b.is_bypass then
    { has_violation := false, has_bypass := true, overall_risk := "medium",
      confidence := b.confidence,
      violation_details := v, bypass_details := b, recommended_action := "warn" }
  else
    { has_violation := false, has_bypass := false, overall_risk := "low",
      confidence := 0,
      violation_details := v, bypass_details := b, recommended_action := "allow" }

/-- `RegexDetector.analyze_message_risk`. -/
def analyze_message_risk (message : String) : RiskAnalysis :=
  risk_analysis_of (detect_violations message) (detect_smart_bypasses message)

/-! ## `MLDetector` (source lines 466-657)

The fitted scikit-learn pipeline is external code; the branches of
`predict_violation` depend only on whether scikit-learn is importable
(`sklearn`), whether the loaded model has fitted classes (`trained`), and
— in the trained case — on the model's prediction and probability, which
enter as the parameters `clfPred` / `clfConf`. -/

/-- The dict returned by `MLDetector.predict_violation` (the
`ml_features` and `model_predictions` payloads, which nothing in scope
reads, are omitted). -/
structure MLResult where
  is_violation : Bool
  confidence : ℚ
  violation_type : Option String
deriving DecidableEq, Repr

/-- `MLDetector.predict_violation`.  Unavailable library and untrained
model both return the fixed low default confidence 0.1 with
`is_violation = False`; a trained model reports its own prediction and
probability. -/
def predict_violation (sklearn trained : Bool) (clfPred : Bool) (clfConf : ℚ) :
    MLResult :=
  if !sklearn then
    { is_violation := false, confidence := 1/10, violation_type := none }
  else if !trained then
    { is_violation := false, confidence := 1/10, violation_type := none }
  else
    { is_violation := clfPred, confidence := clfConf, violation_type := none }

/-- The errors the spec says `train` raises.  The type exists so that
"train fails explicitly" is statable; the embedded `train_models` below
shows which (if any) of its paths actually produce one. -/
inductive TrainError where
  | insufficientClassDiversity : TrainError
deriving DecidableEq, Repr

/-- `MLDetector.train_models`.  The served model is an abstract value
(`Option Nat`: `none` = the default untrained pipeline); the actual
scikit-learn fit is external and enters as the parameter `fit`.  Both
guard branches of the source `print(...)` and `return` — they raise
nothing — so the embedding returns `Except.ok` with the model unchanged,
never `Except.error`. -/
def train_models (sklearn : Bool) (fit : List (String × Int) → Option Nat)
    (model : Option Nat) (training_data : List (String × Int))
    (validation_split : ℚ) : Except TrainError (Option Nat) :=
  if !sklearn || training_data.isEmpty then
    Except.ok model
  else if ((training_data.map Prod.snd).dedup).length < 2 then
    Except.ok model
  else
    let _ := validation_split
    Except.ok (fit training_data)

/-! ## `ModerationDatabase` (source lines 122-291)

Only the `user_stats` table feeds back into decisions.  It is modelled as
a map from user id to the stored row; `risk_score` is the stored REAL
column, recomputed by `_update_user_stats` on every write. -/

/-- A `user_stats` row (the columns decisions read). -/
structure UserStats where
  total_messages : Nat
  flagged_messages : Nat
  risk_score : ℚ
deriving DecidableEq, Repr

def UserStats.fresh : UserStats :=
  { total_messages := 0, flagged_messages := 0, risk_score := 0 }

/-- The `user_stats` table. -/
def DB := String → Option UserStats

def emptyDB : DB := fun _ => none

/-- `ModerationDatabase.get_user_stats`: the stored row, or the
all-zeros default for an unknown user. -/
def get_user_stats (db : DB) (user_id : String) : UserStats :=
  (db user_id).getD UserStats.fresh

/-- `ModerationDatabase._update_user_stats`: `INSERT OR IGNORE` a fresh
row, increment `total_messages` (and `flagged_messages` when flagged),
then set `risk_score = flagged_messages / total_messages` whenever
`total_messages > 0`. -/
def update_user_stats (db : DB) (user_id : String) (flagged : Bool) : DB :=
  let s0 := (db user_id).getD UserStats.fresh
  let s1 : UserStats :=
    { total_messages := s0.total_messages + 1,
      flagged_messages := s0.flagged_messages + (if flagged then 1 else 0),
      risk_score := s0.risk_score }
  let s2 :=
    if s1.total_messages > 0 then
      { s1 with risk_score := (s1.flagged_messages : ℚ) / (s1.total_messages : ℚ) }
    else s1
  fun x => if x = user_id then some s2 else db x

/-- The user-stats effect of `ModerationDatabase.log_flagged_message`. -/
def log_flagged_message (db : DB) (user_id : String) : DB :=
  update_user_stats db user_id true

/-- `ModerationDatabase.log_safe_message`. -/
def log_safe_message (db : DB) (user_id : String) : DB :=
  update_user_stats db user_id false

/-- N `recordFlagged` / M `recordSafe` calls for one identity, in any
interleaving, as a list of flags applied left to right. -/
def apply_events (db : DB) (user_id : String) (events : List Bool) : DB :=
  events.foldl (fun d flagged => update_user_stats d user_id flagged) db

/-! ## `ModerationEngine` (source lines 663-886) -/

/-- The dict built by `ModerationEngine._combine_detection_results`.
`evidence` keeps the source tag of each firing detector (its
sub-confidence/pattern payload is not read by any property in scope). -/
structure CombinedAssessment where
  has_violation : Bool
  confidence : ℚ
  violation_type : Option String
  risk_level : String
  evidence : List String
  user_risk_factor : ℚ
deriving DecidableEq, Repr

/-- `ModerationEngine._combine_detection_results` as a function of the
regex analysis, the ML result, the `trained` flag of
`get_model_info()['violation_classifier']` (false also covers the
sklearn-unavailable case, where the models dict is empty), and the user's
stored risk score.  Mirrors the source statement by statement:

* regex violation: max with the top-level regex confidence, take the
  violation type;
* regex bypass: max with the bypass confidence;
* ML violation: confidence discounted ×0.5 for an untrained model, then
  max;
* user-history adjustment: ×1.2 capped at 1.0 above risk 0.5, ×0.9 below
  risk 0.1;
* risk level step function at 0.9 / 0.7 / 0.5. -/
def combine_detection_results (trained : Bool) (regex : RiskAnalysis)
    (ml : MLResult) (user_risk : ℚ) : CombinedAssessment :=
  let conf0 : ℚ := 0
  let conf1 := if regex.has_violation then max conf0 regex.confidence else conf0
  let vt := if regex.has_violation then regex.violation_details.violation_type else none
  let ev1 := if regex.has_violation then ["regex"] else []
  let conf2 :=
    if regex.has_bypass then max conf1 regex.bypass_details.confidence else conf1
  let ev2 := ev1 ++ (if regex.has_bypass then ["regex_bypass"] else [])
  let mlConf := if trained then ml.confidence else ml.confidence * (1/2)
  let conf3 := if ml.is_violation then max conf2 mlConf else conf2
  let ev3 := ev2 ++ (if ml.is_violation then ["ml"] else [])
  let hasViolation := regex.has_violation || regex.has_bypass || ml.is_violation
  let conf4 :=
    if user_risk > 1/2 then min 1 (conf3 * (12/10))
    else if user_risk < 1/10 then conf3 * (9/10)
    else conf3
  let riskLevel :=
    if conf4 ≥ 9/10 then "critical"
    else if conf4 ≥ 7/10 then "high"
    else if conf4 ≥ 1/2 then "medium"
    else "low"
  { has_violation := hasViolation, confidence := conf4, violation_type := vt,
    risk_level := riskLevel, evidence := ev3, user_risk_factor := user_risk }

/-- The dict returned by `ModerationEngine._make_final_decision`. -/
structure Decision where
  is_flagged : Bool
  action : String
  confidence : ℚ
  violation_type : Option String
  warning_message : Option String
deriving DecidableEq, Repr

/-- The `warning_mapping` dict of `ModerationEngine._get_warning_message`. -/
def warning_mapping : List (String × String) :=
  [("email", "personal_info"),
   ("phone", "personal_info"),
   ("payment_links", "off_platform_transaction"),
   ("external_platforms", "external_platform"),
   ("off_platform_keywords", "off_platform_transaction"),
   ("contact_sharing", "personal_info"),
   ("payment_request", "off_platform_transaction"),
   ("platform_redirect", "external_platform")]

/-- `ModerationEngine._get_warning_message`:
`warning_mapping.get(violation_type, 'general')` — a `None` violation
type (Python) falls through to the `'general'` default. -/
def get_warning_message (violation_type : Option String) : String :=
  let key :=
    match violation_type with
    | some t => ((warning_mapping.find? (fun p => p.1 = t)).map Prod.snd).getD "general"
    | none => "general"
  WARNING_MESSAGES key

/-- `ModerationEngine._make_final_decision`. -/
def make_final_decision (ca : CombinedAssessment) : Decision :=
  if ca.has_violation then
    if ca.confidence ≥ COMBINED_CONFIDENCE_THRESHOLD then
      if ca.risk_level = "critical" ∨ ca.risk_level = "high" then
        { is_flagged := true, action := "block", confidence := ca.confidence,
          violation_type := ca.violation_type,
          warning_message := some (get_warning_message ca.violation_type) }
      else
        { is_flagged := true, action := "warn", confidence := ca.confidence,
          violation_type := ca.violation_type,
          warning_message := some (get_warning_message ca.violation_type) }
    else
      { is_flagged := true, action := "warn", confidence := ca.confidence,
        violation_type := ca.violation_type,
        warning_message := some (WARNING_MESSAGES "general") }
  else
    { is_flagged := false, action := "allow", confidence := ca.confidence,
      violation_type := ca.violation_type, warning_message := none }

/-- The result record of `ModerationEngine.moderate_message` (the
`details` sub-dict is flattened into the `Option`-valued stage fields and
`details_error`; timestamps and processing times are wall-clock data out
of scope). -/
structure ModResult where
  message : String
  user_id : String
  is_flagged : Bool
  action : String
  confidence : ℚ
  violation_type : Option String
  warning_message : Option String
  regex_results : Option RiskAnalysis
  ml_results : Option MLResult
  combined_analysis : Option CombinedAssessment
  details_error : Option String
deriving DecidableEq, Repr

/-- Environment of one `moderate_message` call: the classifier state
(`sklearn`/`trained`/`clfPred`/`clfConf` as in `predict_violation`),
whether the classifier stage raises an exception that escapes it
(`mlRaises`), and whether the persistence step raises
(`persistFlaggedErr` for `_log_flagged_message`, `persistSafeErr` for
`log_safe_message`). -/
structure ModEnv where
  sklearn : Bool
  trained : Bool
  clfPred : Bool
  clfConf : ℚ
  mlRaises : Option String
  persistFlaggedErr : Option String
  persistSafeErr : Option String
deriving Repr

/-- A fresh serving environment: scikit-learn importable, model not yet
trained, no injected failures. -/
def freshEnv : ModEnv :=
  { sklearn := true, trained := false, clfPred := false, clfConf := 0,
    mlRaises := none, persistFlaggedErr := none, persistSafeErr := none }

/-- The result record as initialized at the top of `moderate_message`. -/
def initResult (message user_id : String) : ModResult :=
  { message := message, user_id := user_id, is_flagged := false,
    action := "allow", confidence := 0, violation_type := none,
    warning_message := none, regex_results := none, ml_results := none,
    combined_analysis := none, details_error := none }

/-- The `try` block of `moderate_message`: steps 1-5 in order, threading
the partially-updated result record; a raise at any step carries the
record as updated so far to the `except` handler.  (The aggregate
`self.stats` counters updated at the end of the block feed no decision
and are omitted.) -/
def moderateTry (env : ModEnv) (db : DB) (message user_id : String) :
    Except (String × ModResult) ModResult :=
  let r0 := initResult message user_id
  let regex := analyze_message_risk message
  let r1 := { r0 with regex_results := some regex }
  match env.mlRaises with
  | some e => Except.error (e, r1)
  | none =>
    let ml := predict_violation env.sklearn env.trained env.clfPred env.clfConf
    let r2 := { r1 with ml_results := some ml }
    let combined :=
      combine_detection_results env.trained regex ml
        (get_user_stats db user_id).risk_score
    let r3 := { r2 with combined_analysis := some combined }
    let dec := make_final_decision combined
    let r4 :=
      { r3 with is_flagged := dec.is_flagged, action := dec.action,
                confidence := dec.confidence,
                violation_type := dec.violation_type,
                warning_message := dec.warning_message }
    if dec.is_flagged then
      match env.persistFlaggedErr with
      | some e => Except.error (e, r4)
      | none => Except.ok r4
    else
      match env.persistSafeErr with
      | some e => Except.error (e, r4)
      | none => Except.ok r4

/-- `ModerationEngine.moderate_message`: run the `try` block; the
`except` handler overwrites `action` with `'allow'` ("Fail open for
safety") and records the error string under `details['error']`, leaving
every other field as it stood when the exception was raised. -/
def moderate_message (env : ModEnv) (db : DB) (message user_id : String) :
    ModResult :=
  match moderateTry env db message user_id with
  | Except.ok r => r
  | Except.error (e, r) => { r with action := "allow", details_error := some e }

/-! ## Claims -/

/-- C2: for every assessment, `_make_final_decision` yields
`action = "block"` iff the assessment has a violation, its confidence is
at least the combined threshold 0.6 (inclusive comparison), and its risk
level is high or critical; otherwise a violation yields `"warn"`.  In
particular a violation at confidence exactly 0.6 with risk level high is
blocked, and a violation meeting the confidence gate with risk level low
or medium is warned, never blocked. -/
theorem decision_policy_block_iff :
    (∀ ca : CombinedAssessment,
      ((make_final_decision ca).action = "block" ↔
        ca.has_violation = true ∧ COMBINED_CONFIDENCE_THRESHOLD ≤ ca.confidence ∧
          (ca.risk_level = "high" ∨ ca.risk_level = "critical")) ∧
      ((make_final_decision ca).action = "warn" ↔
        ca.has_violation = true ∧ ¬(COMBINED_CONFIDENCE_THRESHOLD ≤ ca.confidence ∧
          (ca.risk_level = "high" ∨ ca.risk_level = "critical")))) ∧
    (make_final_decision
      { has_violation := true, confidence := 3/5, violation_type := none,
        risk_level := "high", evidence := [], user_risk_factor := 0 }).action = "block" ∧
    (make_final_decision
      { has_violation := true, confidence := 3/5, violation_type := none,
        risk_level := "low", evidence := [], user_risk_factor := 0 }).action = "warn" ∧
    (make_final_decision
      { has_violation := true, confidence := 1, violation_type := none,
        risk_level := "medium", evidence := [], user_risk_factor := 0 }).action = "warn" := by
  have t1 : ("block" : String) ≠ "warn" := by decide
  have t2 : ("warn" : String) ≠ "block" := by decide
  have t3 : ("allow" : String) ≠ "block" := by decide
  have t4 : ("allow" : String) ≠ "warn" := by decide
  refine ⟨fun ca => ?_, ?_, ?_, ?_⟩
  · unfold make_final_decision
    split_ifs with hv hc hr
    · exact ⟨⟨fun _ => ⟨hv, hc, hr.symm⟩, fun _ => rfl⟩,
             ⟨fun h => absurd h t1, fun h => absurd (And.intro hc hr.symm) h.2⟩⟩
    · exact ⟨⟨fun h => absurd h t2, fun h => absurd h.2.2.symm hr⟩,
             ⟨fun _ => ⟨hv, fun hcon => hr hcon.2.symm⟩, fun _ => rfl⟩⟩
    · exact ⟨⟨fun h => absurd h t2, fun h => absurd h.2.1 hc⟩,
             ⟨fun _ => ⟨hv, fun hcon => hc hcon.1⟩, fun _ => rfl⟩⟩
    · exact ⟨⟨fun h => absurd h t3, fun h => absurd h.1 hv⟩,
             ⟨fun h => absurd h t4, fun h => absurd h.1 hv⟩⟩
  · with_unfolding_all decide
  · with_unfolding_all decide
  · with_unfolding_all decide

/-- Written from the spec's words (C3), for comparison with the source's
`_combine_detection_results`: the maximum over the firing sources'
confidences, with the classifier's confidence multiplied by 0.5 when its
model is untrained or unavailable (and 0 when no source fires). -/
def specBaseConfidence (trained : Bool) (v : ViolationResult) (b : BypassResult)
    (ml : MLResult) : ℚ :=
  max 0 (max (max (if v.is_violation then v.confidence else 0)
                  (if b.is_bypass then b.confidence else 0))
             (if ml.is_violation then
                (if trained then ml.confidence else ml.confidence * (1/2))
              else 0))

/-- Written from the spec's words (C3): the historical adjustment —
×1.2 capped at 1.0 above risk score 0.5, ×0.9 below 0.1, unchanged
otherwise. -/
def specRiskAdjust (risk c : ℚ) : ℚ :=
  if risk > 1/2 then min 1 (c * (12/10))
  else if risk < 1/10 then c * (9/10)
  else c

lemma riskAdjust_unfold_congr (risk x y : ℚ) (h : x = y) :
    (if risk > 1/2 then min 1 (x * (12/10))
     else if risk < 1/10 then x * (9/10) else x) = specRiskAdjust risk y := by
  rw [specRiskAdjust, h]

lemma combine_confidence_eq (trained : Bool) (v : ViolationResult)
    (b : BypassResult) (ml : MLResult) (risk : ℚ) :
    (combine_detection_results trained (risk_analysis_of v b) ml risk).confidence
      = specRiskAdjust risk (specBaseConfidence trained v b ml) := by
  unfold combine_detection_results risk_analysis_of specBaseConfidence
  cases hv : v.is_violation <;> cases hb : b.is_bypass <;> cases hml : ml.is_violation <;>
    simp only [hv, hb, hml, Bool.true_and, Bool.false_and, Bool.and_true, Bool.and_false,
      Bool.and_self, if_true, if_false, Bool.false_eq_true, Bool.true_eq_false] <;>
    exact riskAdjust_unfold_congr risk _ _ (by
      simp [max_comm, max_left_comm, max_assoc, max_self])

/-- C3: for every combination of detector, bypass and classifier outputs
and every risk score, the combined confidence equals the maximum over the
firing sources' confidences (the classifier's multiplied by 0.5 when its
model is untrained or unavailable), then multiplied by 1.2 and capped at
1.0 when the risk score exceeds 0.5, multiplied by 0.9 when it is below
0.1, unchanged otherwise; given in-range source confidences the final
value lies in [0, 1]. -/
theorem combiner_confidence_max_adjust_clip (trained : Bool)
    (v : ViolationResult) (b : BypassResult) (ml : MLResult) (risk : ℚ)
    (hv0 : 0 ≤ v.confidence) (hv1 : v.confidence ≤ 1)
    (hb0 : 0 ≤ b.confidence) (hb1 : b.confidence ≤ 1)
    (hm0 : 0 ≤ ml.confidence) (hm1 : ml.confidence ≤ 1) :
    (combine_detection_results trained (risk_analysis_of v b) ml risk).confidence
        = specRiskAdjust risk (specBaseConfidence trained v b ml)
      ∧ 0 ≤ (combine_detection_results trained (risk_analysis_of v b) ml risk).confidence
      ∧ (combine_detection_results trained (risk_analysis_of v b) ml risk).confidence ≤ 1 := by
  have heq := combine_confidence_eq trained v b ml risk
  have hbase0 : 0 ≤ specBaseConfidence trained v b ml := le_max_left 0 _
  have hbase1 : specBaseConfidence trained v b ml ≤ 1 := by
    unfold specBaseConfidence
    refine max_le (by norm_num) (max_le (max_le ?_ ?_) ?_) <;>
      split_ifs <;> first | linarith | norm_num
  refine ⟨heq, ?_, ?_⟩ <;> rw [heq] <;> unfold specRiskAdjust <;>
    split_ifs with hr1 hr2
  · exact le_min (by norm_num) (by nlinarith)
  · nlinarith
  · exact hbase0
  · exact min_le_left 1 _
  · nlinarith
  · exact hbase1

/-- Witness for C3 at a concrete input: both detectors and a (trained
classifier discount applies: `trained = false`) classifier firing at
confidences 0.9 / 0.8 / 0.5, risk score 0. -/
theorem combiner_confidence_max_adjust_clip_witness :
    ((0:ℚ) ≤ (9:ℚ)/10 ∧ (9:ℚ)/10 ≤ 1 ∧ (0:ℚ) ≤ (8:ℚ)/10 ∧ (8:ℚ)/10 ≤ 1 ∧
      (0:ℚ) ≤ (1:ℚ)/2 ∧ (1:ℚ)/2 ≤ 1)
    ∧ ((combine_detection_results false
          (risk_analysis_of { is_violation := true, violation_type := some "email", confidence := 9/10 }
            { is_bypass := true, bypass_type := some "contact_bypass", confidence := 8/10 })
          { is_violation := true, confidence := 1/2, violation_type := none } 0).confidence
        = specRiskAdjust 0 (specBaseConfidence false
            { is_violation := true, violation_type := some "email", confidence := 9/10 }
            { is_bypass := true, bypass_type := some "contact_bypass", confidence := 8/10 }
            { is_violation := true, confidence := 1/2, violation_type := none })
      ∧ 0 ≤ (combine_detection_results false
          (risk_analysis_of { is_violation := true, violation_type := some "email", confidence := 9/10 }
            { is_bypass := true, bypass_type := some "contact_bypass", confidence := 8/10 })
          { is_violation := true, confidence := 1/2, violation_type := none } 0).confidence
      ∧ (combine_detection_results false
          (risk_analysis_of { is_violation := true, violation_type := some "email", confidence := 9/10 }
            { is_bypass := true, bypass_type := some "contact_bypass", confidence := 8/10 })
          { is_violation := true, confidence := 1/2, violation_type := none } 0).confidence ≤ 1) :=
  ⟨by refine ⟨?_, ?_, ?_, ?_, ?_, ?_⟩ <;> with_unfolding_all decide,
   combiner_confidence_max_adjust_clip false
     { is_violation := true, violation_type := some "email", confidence := 9/10 }
     { is_bypass := true, bypass_type := some "contact_bypass", confidence := 8/10 }
     { is_violation := true, confidence := 1/2, violation_type := none } 0
     (by with_unfolding_all decide) (by with_unfolding_all decide)
     (by with_unfolding_all decide) (by with_unfolding_all decide)
     (by with_unfolding_all decide) (by with_unfolding_all decide)⟩

lemma get_update_same (db : DB) (user_id : String) (flagged : Bool) :
    get_user_stats (update_user_stats db user_id flagged) user_id =
      { total_messages := (get_user_stats db user_id).total_messages + 1,
        flagged_messages :=
          (get_user_stats db user_id).flagged_messages + (if flagged then 1 else 0),
        risk_score :=
          (((get_user_stats db user_id).flagged_messages + (if flagged then 1 else 0) : Nat) : ℚ) /
            (((get_user_stats db user_id).total_messages + 1 : Nat) : ℚ) } := by
  unfold get_user_stats update_user_stats
  simp

lemma stats_after_events (events : List Bool) :
    ∀ (db : DB) (user_id : String),
      (get_user_stats (apply_events db user_id events) user_id).total_messages
          = (get_user_stats db user_id).total_messages + events.length
      ∧ (get_user_stats (apply_events db user_id events) user_id).flagged_messages
          = (get_user_stats db user_id).flagged_messages + events.count true
      ∧ (events ≠ [] →
          (get_user_stats (apply_events db user_id events) user_id).risk_score
            = ((get_user_stats (apply_events db user_id events) user_id).flagged_messages : ℚ) /
                ((get_user_stats (apply_events db user_id events) user_id).total_messages : ℚ)) := by
  induction events with
  | nil =>
      intro db user_id
      refine ⟨by simp [apply_events], by simp [apply_events], fun h => absurd rfl h⟩
  | cons e rest ih =>
      intro db user_id
      have hstep : apply_events db user_id (e :: rest)
          = apply_events (update_user_stats db user_id e) user_id rest := by
        simp [apply_events]
      obtain ⟨iht, ihf, ihr⟩ := ih (update_user_stats db user_id e) user_id
      have hupd := get_update_same db user_id e
      refine ⟨?_, ?_, ?_⟩
      · rw [hstep, iht, hupd]
        simp [List.length_cons]
        omega
      · rw [hstep, ihf, hupd]
        simp [List.count_cons]
        cases e <;> simp <;> omega
      · intro _
        rcases List.eq_nil_or_concat rest with hrest | _
        · subst hrest
          rw [hstep]
          simp [apply_events, hupd]
        · cases rest with
          | nil =>
              rw [hstep]
              simp [apply_events, hupd]
          | cons r rs =>
              rw [hstep]
              exact ihr (by simp)

/-- C6: starting from no recorded history, after any interleaving of N
`recordFlagged` (`log_flagged_message`) and M `recordSafe`
(`log_safe_message`) calls for an identity (N + M > 0), its stored risk
score is N / (N + M); an identity with no recorded messages has risk
score 0. -/
theorem risk_score_ratio (user_id : String) (events : List Bool)
    (hne : events ≠ []) :
    (get_user_stats (apply_events emptyDB user_id events) user_id).risk_score
        = (events.count true : ℚ) / (events.length : ℚ)
      ∧ (get_user_stats emptyDB user_id).risk_score = 0 := by
  obtain ⟨ht, hf, hr⟩ := stats_after_events events emptyDB user_id
  have hzero : get_user_stats emptyDB user_id = UserStats.fresh := by
    unfold get_user_stats emptyDB
    rfl
  refine ⟨?_, by rw [hzero]; rfl⟩
  rw [hr hne, ht, hf, hzero]
  show ((0 + events.count true : Nat) : ℚ) / ((0 + events.length : Nat) : ℚ) = _
  norm_num

/-- Witness for C6: two flagged and one safe message give risk score 2/3;
the untouched ledger reports 0. -/
theorem risk_score_ratio_witness :
    ([true, false, true] ≠ ([] : List Bool))
    ∧ (get_user_stats (apply_events emptyDB "witness_user" [true, false, true]) "witness_user").risk_score
        = (([true, false, true].count true : Nat) : ℚ) / (([true, false, true].length : Nat) : ℚ)
    ∧ (get_user_stats emptyDB "witness_user").risk_score = 0 :=
  ⟨by decide, risk_score_ratio "witness_user" [true, false, true] (by decide)⟩

/-- Counterexample to C8 as stated: training data whose labels are all 0
(fewer than 2 distinct values) makes `train_models` return normally —
`Except.ok` with the served model untouched — not an
`InsufficientClassDiversity` error surfaced to the caller (the source
only prints a diagnostic and falls off the end of the function). -/
theorem train_no_diversity_counterexample :
    train_models true (fun _ => some 1) (some 5)
        [("hello", 0), ("world", 0)] (1/5)
      = Except.ok (some 5)
    ∧ train_models true (fun _ => some 1) (some 5)
        [("hello", 0), ("world", 0)] (1/5)
      ≠ Except.error TrainError.insufficientClassDiversity := by
  have h : train_models true (fun _ => some 1) (some 5)
      [("hello", 0), ("world", 0)] (1/5) = Except.ok (some 5) := by
    with_unfolding_all rfl
  exact ⟨h, fun hc => Except.noConfusion (h ▸ hc)⟩

/-- C8 (amended): for every training-sample list whose labels contain
fewer than 2 distinct values, `train_models` returns normally without
raising (only printing a diagnostic) and leaves the currently served
model unchanged; no error is surfaced to the caller. -/
theorem train_no_diversity_leaves_model (sklearn : Bool)
    (fit : List (String × Int) → Option Nat) (model : Option Nat)
    (training_data : List (String × Int)) (validation_split : ℚ)
    (hlt : ((training_data.map Prod.snd).dedup).length < 2) :
    train_models sklearn fit model training_data validation_split
      = Except.ok model := by
  unfold train_models
  split_ifs with h1
  · rfl
  · rfl

/-- Witness for C8 (amended) at a concrete single-label sample list. -/
theorem train_no_diversity_leaves_model_witness :
    ((([("a", (0 : Int))].map Prod.snd).dedup).length < 2)
    ∧ train_models true (fun _ => some 1) (some 7) [("a", (0 : Int))] (1/5)
        = Except.ok (some 7) :=
  ⟨by decide,
   train_no_diversity_leaves_model true (fun _ => some 1) (some 7)
     [("a", (0 : Int))] (1/5) (by decide)⟩

lemma combine_vt_none (m : String) (trained : Bool) (ml : MLResult) (risk : ℚ)
    (hv : (detect_violations m).is_violation = false) :
    (combine_detection_results trained (analyze_message_risk m) ml risk).violation_type
      = none := by
  unfold combine_detection_results analyze_message_risk risk_analysis_of
  cases hb : (detect_smart_bypasses m).is_bypass <;> simp [hv, hb]

lemma decision_warning_general (ca : CombinedAssessment)
    (hvt : ca.violation_type = none) (hflag : ca.has_violation = true) :
    (make_final_decision ca).warning_message = some (WARNING_MESSAGES "general") := by
  unfold make_final_decision
  split_ifs with h1 h2 h3 <;> simp_all [get_warning_message]

/-- C10: the combined assessment's `violation_type` is non-`None` only
when the ordered regex category detector fired; when the violation arises
solely from bypass or classifier evidence the `violation_type` is `None`
and the decision's warning message is the generic `"general"` text (also
in the block branches, whose category lookup falls through to the
`'general'` default on `None`). -/
theorem violation_type_regex_only (m : String) (trained : Bool)
    (ml : MLResult) (risk : ℚ) :
    ((combine_detection_results trained (analyze_message_risk m) ml risk).violation_type ≠ none →
      (detect_violations m).is_violation = true)
    ∧ ((detect_violations m).is_violation = false →
        (combine_detection_results trained (analyze_message_risk m) ml risk).violation_type = none
        ∧ ((combine_detection_results trained (analyze_message_risk m) ml risk).has_violation = true →
            (make_final_decision
              (combine_detection_results trained (analyze_message_risk m) ml risk)).warning_message
              = some (WARNING_MESSAGES "general"))) := by
  constructor
  · intro hne
    cases h : (detect_violations m).is_violation
    · exact absurd (combine_vt_none m trained ml risk h) hne
    · rfl
  · intro hv
    have hvt := combine_vt_none m trained ml risk hv
    exact ⟨hvt, fun hflag => decision_warning_general _ hvt hflag⟩

/-- Witness for C10: `"call me at noon"` fires only the bypass heuristic
(the normalizer corrupts the off-platform keyword), and the resulting
block decision carries `violation_type = None` with the generic warning
text. -/
theorem violation_type_regex_only_witness :
    (detect_violations "call me at noon").is_violation = false
    ∧ (combine_detection_results false (analyze_message_risk "call me at noon")
        (predict_violation true false false 0) 0).violation_type = none
    ∧ ((combine_detection_results false (analyze_message_risk "call me at noon")
        (predict_violation true false false 0) 0).has_violation = true
      ∧ (make_final_decision
          (combine_detection_results false (analyze_message_risk "call me at noon")
            (predict_violation true false false 0) 0)).warning_message
          = some (WARNING_MESSAGES "general")) := by
  have hv : (detect_violations "call me at noon").is_violation = false := by
    with_unfolding_all decide
  have h := (violation_type_regex_only "call me at noon" false
    (predict_violation true false false 0) 0).2 hv
  exact ⟨hv, h.1, by with_unfolding_all decide, h.2 (by with_unfolding_all decide)⟩

lemma decision_not_flagged_allow (ca : CombinedAssessment)
    (h : (make_final_decision ca).is_flagged = false) :
    (make_final_decision ca).action = "allow" := by
  unfold make_final_decision at *
  split_ifs at * <;> simp_all

/-- C4 (amended): with the classifier stage healthy, a failure raised in
the persistence step is caught by the same catch-all handler as every
other stage: the returned `is_flagged`, `confidence`, `violation_type`
and `warning_message` stay exactly as computed and the error is recorded
in the details, but the `action` is overwritten with the fail-open
`"allow"` — a computed block or warn is retroactively changed to allow by
a flagged-record persistence failure (for a safe message the action was
already `"allow"`). -/
theorem persistence_failure_overwrites_action (env : ModEnv) (db : DB)
    (message user_id e : String) (hml : env.mlRaises = none) :
    ((moderate_message { env with persistFlaggedErr := none, persistSafeErr := none }
        db message user_id).is_flagged = true →
      moderate_message { env with persistFlaggedErr := some e } db message user_id
        = { moderate_message { env with persistFlaggedErr := none, persistSafeErr := none }
              db message user_id with
            action := "allow", details_error := some e })
    ∧ ((moderate_message { env with persistFlaggedErr := none, persistSafeErr := none }
        db message user_id).is_flagged = false →
      moderate_message { env with persistFlaggedErr := none, persistSafeErr := some e }
          db message user_id
        = { moderate_message { env with persistFlaggedErr := none, persistSafeErr := none }
              db message user_id with
            details_error := some e }) := by
  refine ⟨fun hflag => ?_, fun hflag => ?_⟩
  · simp only [moderate_message, moderateTry, hml, ite_self] at hflag ⊢
    simp [hflag]
  · simp only [moderate_message, moderateTry, hml, ite_self] at hflag ⊢
    have ha := decision_not_flagged_allow _ hflag
    simp [hflag, ha]

/-- Counterexample to C4 as stated: on `"abc@def.xyz"` (email category
fires, decision block) a failing flagged-record persistence step changes
the returned action from the computed `"block"` to `"allow"`, while
`is_flagged`, `confidence` and `violation_type` keep their computed
values. -/
theorem persistence_failure_counterexample :
    (moderate_message freshEnv emptyDB "abc@def.xyz" "u1").action = "block"
    ∧ (moderate_message freshEnv emptyDB "abc@def.xyz" "u1").is_flagged = true
    ∧ (moderate_message { freshEnv with persistFlaggedErr := some "db down" }
        emptyDB "abc@def.xyz" "u1").is_flagged = true
    ∧ (moderate_message { freshEnv with persistFlaggedErr := some "db down" }
        emptyDB "abc@def.xyz" "u1").action = "allow"
    ∧ (moderate_message { freshEnv with persistFlaggedErr := some "db down" }
        emptyDB "abc@def.xyz" "u1").confidence
        = (moderate_message freshEnv emptyDB "abc@def.xyz" "u1").confidence
    ∧ (moderate_message { freshEnv with persistFlaggedErr := some "db down" }
        emptyDB "abc@def.xyz" "u1").violation_type = some "email" := by
  refine ⟨?_, ?_, ?_, ?_, ?_, ?_⟩ <;> with_unfolding_all decide

/-- Witness for C4 (amended) at the concrete flagged input
`"abc@def.xyz"` with a failing flagged-record persistence step. -/
theorem persistence_failure_overwrites_action_witness :
    freshEnv.mlRaises = none
    ∧ (moderate_message { freshEnv with persistFlaggedErr := none, persistSafeErr := none }
        emptyDB "abc@def.xyz" "u4").is_flagged = true
    ∧ moderate_message { freshEnv with persistFlaggedErr := some "disk full" }
        emptyDB "abc@def.xyz" "u4"
      = { moderate_message { freshEnv with persistFlaggedErr := none, persistSafeErr := none }
            emptyDB "abc@def.xyz" "u4" with
          action := "allow", details_error := some "disk full" } :=
  ⟨rfl, by with_unfolding_all decide,
   (persistence_failure_overwrites_action freshEnv emptyDB "abc@def.xyz" "u4"
      "disk full" rfl).1 (by with_unfolding_all decide)⟩

/-- C5 (amended): if the classifier stage raises an error that escapes it,
`moderate_message` still returns normally — never an unhandled failure —
with the error recorded in the result's details; but the returned action
is the fail-open `"allow"` regardless of what the regex detection and
bypass evidence would have decided, and the message is left unflagged. -/
theorem classifier_error_fail_open (env : ModEnv) (db : DB)
    (message user_id e : String) (hml : env.mlRaises = some e) :
    moderate_message env db message user_id
      = { initResult message user_id with
          regex_results := some (analyze_message_risk message),
          action := "allow", details_error := some e } := by
  simp [moderate_message, moderateTry, hml, initResult]

/-- Counterexample to C5 as stated: on `"abc@def.xyz"` the regex-only
evidence decides block, but when the classifier stage raises, the
returned action is `"allow"`, not the regex-derived `"block"` (the error
is recorded in the details). -/
theorem classifier_error_counterexample :
    (moderate_message freshEnv emptyDB "abc@def.xyz" "u2").action = "block"
    ∧ (moderate_message { freshEnv with mlRaises := some "classifier exploded" }
        emptyDB "abc@def.xyz" "u2").action = "allow"
    ∧ (moderate_message { freshEnv with mlRaises := some "classifier exploded" }
        emptyDB "abc@def.xyz" "u2").details_error = some "classifier exploded"
    ∧ (moderate_message { freshEnv with mlRaises := some "classifier exploded" }
        emptyDB "abc@def.xyz" "u2").is_flagged = false := by
  refine ⟨?_, ?_, ?_, ?_⟩ <;> with_unfolding_all decide

/-- Witness for C5 (amended) at a concrete raising classifier. -/
theorem classifier_error_fail_open_witness :
    ({ freshEnv with mlRaises := some "boom" } : ModEnv).mlRaises = some "boom"
    ∧ moderate_message { freshEnv with mlRaises := some "boom" } emptyDB
        "abc@def.xyz" "u3"
      = { initResult "abc@def.xyz" "u3" with
          regex_results := some (analyze_message_risk "abc@def.xyz"),
          action := "allow", details_error := some "boom" } :=
  ⟨rfl, classifier_error_fail_open _ emptyDB "abc@def.xyz" "u3" "boom" rfl⟩

/-- C1: evaluation of the pipeline on
`moderate("Contact me at john.doe@gmail.com", "user5")` with no prior
history.  The normalizer rewrites the message to
`"c0ntact me @ j0hn.d0e@gmai1.c0m"`, so no regex category — in
particular not email — matches; only the bypass heuristic fires (0.8,
history-adjusted to 0.72).  The result has `violation_type = None` and
`confidence = 0.72`, not email/0.9 as the spec scenario states; the
claimed `risk_level = high` and `action = block` do hold. -/
theorem scenario_email_message_eval :
    (moderate_message freshEnv emptyDB "Contact me at john.doe@gmail.com" "user5").violation_type
        = none
    ∧ (moderate_message freshEnv emptyDB "Contact me at john.doe@gmail.com" "user5").confidence
        = 18/25
    ∧ (moderate_message freshEnv emptyDB "Contact me at john.doe@gmail.com" "user5").action
        = "block"
    ∧ ((moderate_message freshEnv emptyDB "Contact me at john.doe@gmail.com" "user5").combined_analysis.map
        CombinedAssessment.risk_level) = some "high"
    ∧ (detect_violations "Contact me at john.doe@gmail.com").is_violation = false
    ∧ (detect_smart_bypasses "Contact me at john.doe@gmail.com").bypass_type
        = some "contact_bypass"
    ∧ normalize_message "Contact me at john.doe@gmail.com"
        = "c0ntact me @ j0hn.d0e@gmai1.c0m" := by
  refine ⟨?_, ?_, ?_, ?_, ?_, ?_, ?_⟩ <;> with_unfolding_all decide

/-- C7: evaluation at the failing input `"john.doe@gmail.com"` — a
well-formed email address on which `detect_violations` reports no
violation at all, because `_normalize_message` rewrites `o→0` and `l→1`
inside the address (yielding `"j0hn.d0e@gmai1.c0m"`, whose TLD `c0m` no
email pattern accepts).  An address that normalization leaves intact,
`"abc@def.xyz"`, is detected as email with confidence 0.9. -/
theorem email_detection_normalization_eval :
    detect_violations "john.doe@gmail.com"
        = { is_violation := false, violation_type := none, confidence := 0 }
    ∧ normalize_message "john.doe@gmail.com" = "j0hn.d0e@gmai1.c0m"
    ∧ detect_violations "abc@def.xyz"
        = { is_violation := true, violation_type := some "email",
            confidence := REGEX_CONFIDENCE } := by
  refine ⟨?_, ?_, ?_⟩ <;> with_unfolding_all decide

/-- C9: evaluation of the pipeline on
`moderate("Let's deal outside this platform", "user19")`.  No bypass
pattern matches — `(?:meet|deal|transaction)\s+(?:outside|off)\s+(?:platform|site|app)`
does not allow the intervening word `"this"` — and no regex category
matches the normalized text `"1et's dea1 0utside this p1@f0rm"`, so the
message is allowed, not blocked at bypass confidence 0.8 as the spec
scenario states. -/
theorem scenario_bypass_message_eval :
    (detect_smart_bypasses "Let's deal outside this platform").is_bypass = false
    ∧ (detect_violations "Let's deal outside this platform").is_violation = false
    ∧ (moderate_message freshEnv emptyDB "Let's deal outside this platform" "user19").is_flagged
        = false
    ∧ (moderate_message freshEnv emptyDB "Let's deal outside this platform" "user19").action
        = "allow" := by
  refine ⟨?_, ?_, ?_, ?_⟩ <;> with_unfolding_all decide

end ChatModeration
